import Mathlib

/-
Verification of the job-lifecycle orchestrator of the Isekai browser
extension (background service worker, src/background.ts).  The worker keeps
three in-memory maps (active jobs by tab id, pending timeout handles by tab
id, local tab-closure retry counters by job id), a persisted stats record and
a persisted, capped job-history list.  Terminal transitions are driven by
the handlers handleJobSuccess, handleJobFailure, handleJobTimeout and the
chrome.tabs.onRemoved listener; pollForJob fetches and dispatches work.

The embedding renders each handler as the explicit sequence of primitive
state operations and backend calls it performs, in source order; a fold
applies such a trace to the state.  A Boolean reportOk models whether the
single Queue Client report call inside a handler resolves or throws (on a
throw the rest of the handler body is skipped by the surrounding catch,
which only logs).
-/

namespace Isekai

/-- Deviation payload carried by a job (shared/types.ts, Job.deviation). -/
structure Deviation where
  title : String
  deviationUrl : String
  thumbnailUrl : Option String
  deriving DecidableEq

/-- Price-preset payload carried by a job (shared/types.ts, Job.pricePreset). -/
structure PricePreset where
  currency : String
  deriving DecidableEq

/-- A queued unit of work (shared/types.ts, interface Job).  Prices are in
cents; attempts is the backend-tracked attempt count. -/
structure Job where
  id : String
  deviationId : String
  pricePresetId : String
  price : Nat
  attempts : Nat
  deviation : Deviation
  pricePreset : PricePreset
  deriving DecidableEq

/-- Status of a history record (shared/types.ts, JobHistoryItem.status). -/
inductive JobStatus where
  | processing
  | completed
  | failed
  deriving DecidableEq

/-- One record of the persisted job-history list (shared/types.ts,
interface JobHistoryItem). -/
structure JobHistoryItem where
  id : String
  title : String
  url : String
  thumbnailUrl : Option String
  status : JobStatus
  timestamp : Nat
  price : Option Nat
  deriving DecidableEq

/-- The currentJob field of the stats record (shared/types.ts, Stats). -/
structure CurrentJob where
  id : String
  title : String
  deriving DecidableEq

/-- The persisted stats record (shared/types.ts, interface Stats). -/
structure Stats where
  processed : Nat
  succeeded : Nat
  failed : Nat
  lastProcessedAt : Option Nat
  currentJob : Option CurrentJob
  deriving DecidableEq

/-- Lookup in an association-list model of a JS Map. -/
def mapLookup {κ α : Type} [DecidableEq κ] (m : List (κ × α)) (k : κ) : Option α :=
  match m with
  | [] => none
  | (k', v) :: rest => if k' = k then some v else mapLookup rest k

/-- Map.set: update the entry in place when the key exists, append otherwise. -/
def mapInsert {κ α : Type} [DecidableEq κ] (m : List (κ × α)) (k : κ) (v : α) :
    List (κ × α) :=
  match m with
  | [] => [(k, v)]
  | (k', v') :: rest =>
    if k' = k then (k, v) :: rest else (k', v') :: mapInsert rest k v

/-- Map.delete: remove every entry for the key (JS Maps hold at most one). -/
def mapErase {κ α : Type} [DecidableEq κ] (m : List (κ × α)) (k : κ) :
    List (κ × α) :=
  match m with
  | [] => []
  | (k', v') :: rest =>
    if k' = k then mapErase rest k else (k', v') :: mapErase rest k

/-- In-memory and persisted state of the background worker
(background.ts lines 18-25 for the maps, storage for stats and history). -/
structure BgState where
  activeJobs : List (Nat × Job)
  jobTimeouts : List (Nat × Nat)
  tabClosureRetries : List (String × Nat)
  stats : Stats
  history : List JobHistoryItem
  deriving DecidableEq

/-- State after onInstalled initialisation: empty maps, zeroed stats
(background.ts lines 85-94), empty history. -/
def initialState : BgState :=
  { activeJobs := []
    jobTimeouts := []
    tabClosureRetries := []
    stats := { processed := 0, succeeded := 0, failed := 0
               lastProcessedAt := none, currentJob := none }
    history := [] }

/-- Maximum local retries for tab closures before reporting to the backend
(background.ts line 28). -/
def MAX_TAB_CLOSURE_RETRIES : Nat := 3

/-- The history record built by addJobToHistory (background.ts lines 37-45);
the timestamp argument stands for Date.now(). -/
def mkHistoryItem (job : Job) (status : JobStatus) (now : Nat) : JobHistoryItem :=
  { id := job.id
    title := job.deviation.title
    url := job.deviation.deviationUrl
    thumbnailUrl := job.deviation.thumbnailUrl
    status := status
    timestamp := now
    price := some job.price }

/-- addJobToHistory (background.ts lines 33-54): unshift the new record onto
the newest-first list, then slice(0, 50). -/
def addJobToHistory (history : List JobHistoryItem) (job : Job) (status : JobStatus)
    (now : Nat) : List JobHistoryItem :=
  (mkHistoryItem job status now :: history).take 50

/-- updateJobInHistory (background.ts lines 59-69): findIndex on the job id,
then mutate that record's status and timestamp in place; no-op when absent. -/
def updateJobInHistory (history : List JobHistoryItem) (jobId : String)
    (status : JobStatus) (now : Nat) : List JobHistoryItem :=
  match history with
  | [] => []
  | item :: rest =>
    if item.id = jobId then { item with status := status, timestamp := now } :: rest
    else item :: updateJobInHistory rest jobId status now

/-- Index of the first history record with the given job id (mirrors
Array.findIndex in updateJobInHistory); equals the length when absent. -/
def findJobIdx (history : List JobHistoryItem) (jobId : String) : Nat :=
  match history with
  | [] => 0
  | item :: rest => if item.id = jobId then 0 else findJobIdx rest jobId + 1

/-- A Queue Client call made by the worker (shared/api-client.ts). -/
inductive BackendCall where
  | getNextJob (clientId : String)
  | completeJob (jobId : String)
  | failJob (jobId : String) (errorMessage : String)
  deriving DecidableEq

/-- A primitive state operation or backend call performed by a handler.
closeTab records the chrome.tabs.remove call; report records a Queue Client
call (its effect is on the backend, not on local state). -/
inductive Action where
  | clearTimeout (tabId : Nat)
  | setJobTimeout (tabId : Nat) (handle : Nat)
  | removeActive (tabId : Nat)
  | insertActive (tabId : Nat) (job : Job)
  | removeRetry (jobId : String)
  | setRetry (jobId : String) (count : Nat)
  | report (call : BackendCall)
  | statsIncSuccess (now : Nat)
  | statsIncFailure (now : Nat)
  | setCurrentJob (jobId : String) (title : String)
  | addHistory (job : Job) (status : JobStatus) (now : Nat)
  | updateHistory (jobId : String) (status : JobStatus) (now : Nat)
  | closeTab (tabId : Nat)
  deriving DecidableEq

/-- Effect of one primitive action on the worker state.  statsIncSuccess and
statsIncFailure render the stats updates of background.ts lines 399-402 and
471-474 (increment, set lastProcessedAt, delete currentJob). -/
def applyAction (st : BgState) (a : Action) : BgState :=
  match a with
  | .clearTimeout tabId => { st with jobTimeouts := mapErase st.jobTimeouts tabId }
  | .setJobTimeout tabId handle =>
      { st with jobTimeouts := mapInsert st.jobTimeouts tabId handle }
  | .removeActive tabId => { st with activeJobs := mapErase st.activeJobs tabId }
  | .insertActive tabId job =>
      { st with activeJobs := mapInsert st.activeJobs tabId job }
  | .removeRetry jobId =>
      { st with tabClosureRetries := mapErase st.tabClosureRetries jobId }
  | .setRetry jobId count =>
      { st with tabClosureRetries := mapInsert st.tabClosureRetries jobId count }
  | .report _ => st
  | .statsIncSuccess now =>
      { st with stats := { st.stats with
          processed := st.stats.processed + 1
          succeeded := st.stats.succeeded + 1
          lastProcessedAt := some now
          currentJob := none } }
  | .statsIncFailure now =>
      { st with stats := { st.stats with
          processed := st.stats.processed + 1
          failed := st.stats.failed + 1
          lastProcessedAt := some now
          currentJob := none } }
  | .setCurrentJob jobId title =>
      { st with stats := { st.stats with currentJob := some { id := jobId, title := title } } }
  | .addHistory job status now =>
      { st with history := addJobToHistory st.history job status now }
  | .updateHistory jobId status now =>
      { st with history := updateJobInHistory st.history jobId status now }
  | .closeTab _ => st

/-- Apply a handler's trace of actions to the state, left to right. -/
def applyTrace (st : BgState) (tr : List Action) : BgState :=
  tr.foldl applyAction st

/-- The backend calls occurring in a trace, in order. -/
def reports (tr : List Action) : List BackendCall :=
  tr.filterMap (fun a => match a with | .report c => some c | _ => none)

/-- handleJobSuccess (background.ts lines 372-422), as its sequence of
operations: clear the timeout entry, call completeJob; if the call resolves
(reportOk) then increment the success stats, update the history record to
completed, delete the activeJobs entry and the retry counter, and close the
tab; if completeJob throws, the catch only logs and everything after the
call is skipped.  Note there is no guard on the presence of an activeJobs
entry for tabId. -/
def handleJobSuccessTrace (tabId : Nat) (jobId : String) (reportOk : Bool)
    (now : Nat) : List Action :=
  [.clearTimeout tabId, .report (.completeJob jobId)] ++
    (if reportOk then
      [.statsIncSuccess now, .updateHistory jobId .completed now,
       .removeActive tabId, .removeRetry jobId, .closeTab tabId]
    else [])

/-- handleJobFailure (background.ts lines 427-496): when a tab id is given,
clear its timeout entry and delete its activeJobs entry; delete the retry
counter; call failJob; if the call resolves, increment the failure stats,
update the history record to failed, delete the activeJobs entry again and
close the tab; if failJob throws, the catch only logs.  There is no guard
on the presence of an activeJobs entry. -/
def handleJobFailureTrace (tabId : Option Nat) (jobId errorMessage : String)
    (reportOk : Bool) (now : Nat) : List Action :=
  (match tabId with
   | some t => [.clearTimeout t, .removeActive t]
   | none => []) ++
  [.removeRetry jobId, .report (.failJob jobId errorMessage)] ++
  (if reportOk then
    [.statsIncFailure now, .updateHistory jobId .failed now] ++
      (match tabId with
       | some t => [.removeActive t, .closeTab t]
       | none => [])
  else [])

/-- Reason string passed by handleJobTimeout (background.ts line 366). -/
def TIMEOUT_MESSAGE : String := "Job processing timed out after 2 minutes"

/-- handleJobTimeout (background.ts lines 360-367): look up the activeJobs
entry; if absent, return with no action; otherwise delegate to
handleJobFailure with the tab id and the timeout reason. -/
def handleJobTimeoutTrace (st : BgState) (tabId : Nat) (reportOk : Bool)
    (now : Nat) : List Action :=
  match mapLookup st.activeJobs tabId with
  | none => []
  | some job => handleJobFailureTrace (some tabId) job.id TIMEOUT_MESSAGE reportOk now

/-- The state operations of the happy path of processJob (background.ts
lines 256-297): record currentJob in stats, append a processing history
record, register the activeJobs entry for the created tab, and arm the job
timeout.  handle stands for the setTimeout handle, tabId for the created
tab's id. -/
def processJobDispatchTrace (job : Job) (tabId handle now : Nat) : List Action :=
  [.setCurrentJob job.id job.deviation.title,
   .addHistory job .processing now,
   .insertActive tabId job,
   .setJobTimeout tabId handle]

/-- Reason string used at the local-retry ceiling (background.ts line 573). -/
def TAB_CLOSED_MESSAGE : String := "Tab closed 3 times"

/-- chrome.tabs.onRemoved listener (background.ts lines 533-575).  Returns
the trace of actions together with the list of jobs handed back to
processJob for local re-dispatch.  When no activeJobs entry exists for the
tab, nothing happens.  Otherwise the entry and timeout are cleaned up; when
the retry counter is strictly below MAX_TAB_CLOSURE_RETRIES it is
incremented and the job is re-dispatched (after a 2 s delay, not modelled);
otherwise the counter is deleted and handleJobFailure is invoked with a
null tab id. -/
def onTabRemovedTrace (st : BgState) (tabId : Nat) (reportOk : Bool)
    (now : Nat) : List Action × List Job :=
  match mapLookup st.activeJobs tabId with
  | none => ([], [])
  | some job =>
    let cleanup : List Action := [.removeActive tabId, .clearTimeout tabId]
    let retryCount := (mapLookup st.tabClosureRetries job.id).getD 0
    if retryCount < MAX_TAB_CLOSURE_RETRIES then
      (cleanup ++ [.setRetry job.id (retryCount + 1)], [job])
    else
      (cleanup ++ [.removeRetry job.id] ++
        handleJobFailureTrace none job.id TAB_CLOSED_MESSAGE reportOk now, [])

/-- The event sources that mutate the orchestrator state: a dispatch
(processJob happy path), a JOB_SUCCESS message, a JOB_FAILED message or a
dispatch failure (handleJobFailure), a timeout firing, and a tab removal. -/
inductive Event where
  | dispatch (job : Job) (tabId handle now : Nat)
  | success (tabId : Nat) (jobId : String) (reportOk : Bool) (now : Nat)
  | failure (tabId : Option Nat) (jobId errorMessage : String) (reportOk : Bool) (now : Nat)
  | timeout (tabId : Nat) (reportOk : Bool) (now : Nat)
  | tabRemoved (tabId : Nat) (reportOk : Bool) (now : Nat)
  deriving DecidableEq

/-- The trace of actions an event performs from a given state. -/
def eventTrace (st : BgState) (e : Event) : List Action :=
  match e with
  | .dispatch job tabId handle now => processJobDispatchTrace job tabId handle now
  | .success tabId jobId reportOk now => handleJobSuccessTrace tabId jobId reportOk now
  | .failure tabId jobId msg reportOk now => handleJobFailureTrace tabId jobId msg reportOk now
  | .timeout tabId reportOk now => handleJobTimeoutTrace st tabId reportOk now
  | .tabRemoved tabId reportOk now => (onTabRemovedTrace st tabId reportOk now).1

/-- One event applied to the state. -/
def step (st : BgState) (e : Event) : BgState :=
  applyTrace st (eventTrace st e)

/-- A sequence of events applied to the state. -/
def run (st : BgState) (es : List Event) : BgState :=
  es.foldl step st

/-- The storage configuration read by pollForJob (STORAGE_KEYS isRunning,
apiKey, apiUrl, clientId). -/
structure PollConfig where
  isRunning : Bool
  apiKey : Option String
  apiUrl : Option String
  clientId : Option String
  deriving DecidableEq

/-- JS falsiness of an optional string (undefined or empty). -/
def falsyStr (s : Option String) : Bool :=
  match s with
  | none => true
  | some v => v = ""

/-- pollForJob (background.ts lines 197-251): return immediately when the
running flag is off, when apiKey or apiUrl is falsy, or when clientId is
falsy; otherwise call getNextJob and, when a job is returned, run the
processJob dispatch.  Result: the new state and the backend calls made. -/
def pollForJob (cfg : PollConfig) (st : BgState) (nextJob : Option Job)
    (tabId handle now : Nat) : BgState × List BackendCall :=
  if !cfg.isRunning then (st, [])
  else if falsyStr cfg.apiKey || falsyStr cfg.apiUrl then (st, [])
  else if falsyStr cfg.clientId then (st, [])
  else
    let cid := cfg.clientId.getD ""
    match nextJob with
    | none => (st, [.getNextJob cid])
    | some job =>
      (applyTrace st (processJobDispatchTrace job tabId handle now), [.getNextJob cid])

/-- An operation on the history list, for quantifying over call sequences. -/
inductive HistOp where
  | add (job : Job) (status : JobStatus) (now : Nat)
  | update (jobId : String) (status : JobStatus) (now : Nat)
  deriving DecidableEq

/-- Apply one history operation. -/
def applyHistOp (h : List JobHistoryItem) (op : HistOp) : List JobHistoryItem :=
  match op with
  | .add job status now => addJobToHistory h job status now
  | .update jobId status now => updateJobInHistory h jobId status now

/-- Apply a sequence of history operations. -/
def runHist (h : List JobHistoryItem) (ops : List HistOp) : List JobHistoryItem :=
  ops.foldl applyHistOp h

/-- A concrete job used to instantiate theorems. -/
def jobA : Job :=
  { id := "j1", deviationId := "d1", pricePresetId := "p1", price := 500, attempts := 0
    deviation := { title := "Art A", deviationUrl := "https://da/a", thumbnailUrl := none }
    pricePreset := { currency := "USD" } }

/-- A concrete job for the crash-retry scenario. -/
def jobB : Job :=
  { id := "j2", deviationId := "d2", pricePresetId := "p2", price := 700, attempts := 0
    deviation := { title := "Art B", deviationUrl := "https://da/b", thumbnailUrl := none }
    pricePreset := { currency := "USD" } }

/-- A concrete job for the history-record scenario. -/
def jobC : Job :=
  { id := "j9", deviationId := "d9", pricePresetId := "p9", price := 900, attempts := 0
    deviation := { title := "Art C", deviationUrl := "https://da/c", thumbnailUrl := none }
    pricePreset := { currency := "USD" } }

/-- State after a single dispatch of jobA on tab 1. -/
def dispatchedA : BgState := step initialState (.dispatch jobA 1 7 0)

/-- Looking up a key just inserted yields the inserted value. -/
theorem mapLookup_mapInsert_self {κ α : Type} [DecidableEq κ] (m : List (κ × α))
    (k : κ) (v : α) : mapLookup (mapInsert m k v) k = some v := by
  induction m with
  | nil => simp [mapInsert, mapLookup]
  | cons e rest ih =>
    obtain ⟨k', v'⟩ := e
    by_cases h : k' = k <;> simp [mapInsert, mapLookup, h, ih]

/-- Looking up a key just erased yields none. -/
theorem mapLookup_mapErase_self {κ α : Type} [DecidableEq κ] (m : List (κ × α))
    (k : κ) : mapLookup (mapErase m k) k = none := by
  induction m with
  | nil => simp [mapErase, mapLookup]
  | cons e rest ih =>
    obtain ⟨k', v'⟩ := e
    by_cases h : k' = k <;> simp [mapErase, mapLookup, h, ih]

/-- The stats counters balance: processed equals succeeded plus failed. -/
def statsInv (st : BgState) : Prop :=
  st.stats.processed = st.stats.succeeded + st.stats.failed

/-- Every primitive action preserves the stats balance. -/
theorem statsInv_applyAction {st : BgState} (a : Action) (h : statsInv st) :
    statsInv (applyAction st a) := by
  cases a <;> simp [applyAction, statsInv] at h ⊢ <;> omega

/-- Every trace of actions preserves the stats balance. -/
theorem statsInv_applyTrace {st : BgState} (tr : List Action) (h : statsInv st) :
    statsInv (applyTrace st tr) := by
  induction tr generalizing st with
  | nil => exact h
  | cons a tl ih => exact ih (statsInv_applyAction a h)

/-- Every event preserves the stats balance. -/
theorem statsInv_step {st : BgState} (e : Event) (h : statsInv st) :
    statsInv (step st e) :=
  statsInv_applyTrace _ h

/-- Every event sequence preserves the stats balance. -/
theorem statsInv_run {st : BgState} (es : List Event) (h : statsInv st) :
    statsInv (run st es) := by
  induction es generalizing st with
  | nil => exact h
  | cons e tl ih => exact ih (statsInv_step e h)

/-- updateJobInHistory never changes the length of the list. -/
theorem updateJobInHistory_length (h : List JobHistoryItem) (jobId : String)
    (status : JobStatus) (now : Nat) :
    (updateJobInHistory h jobId status now).length = h.length := by
  induction h with
  | nil => rfl
  | cons item rest ih =>
    by_cases hid : item.id = jobId <;> simp [updateJobInHistory, hid, ih]

/-- One history operation keeps the list within the 50-record cap. -/
theorem applyHistOp_length_le (h : List JobHistoryItem) (op : HistOp)
    (hle : h.length ≤ 50) : (applyHistOp h op).length ≤ 50 := by
  cases op with
  | add job status now =>
    simp only [applyHistOp, addJobToHistory, List.length_take]
    omega
  | update jobId status now =>
    simpa [applyHistOp, updateJobInHistory_length] using hle

/-- A sequence of history operations keeps the list within the cap. -/
theorem runHist_length_le (h : List JobHistoryItem) (ops : List HistOp)
    (hle : h.length ≤ 50) : (runHist h ops).length ≤ 50 := by
  induction ops generalizing h with
  | nil => exact hle
  | cons op tl ih => exact ih _ (applyHistOp_length_le h op hle)

/-- updateJobInHistory leaves every record other than the first match
untouched and rewrites exactly the status and timestamp of the first match. -/
theorem updateJobInHistory_getElem? (h : List JobHistoryItem) (jobId : String)
    (status : JobStatus) (now : Nat) :
    (∀ i, i ≠ findJobIdx h jobId →
      (updateJobInHistory h jobId status now)[i]? = h[i]?) ∧
    (∀ e, h[findJobIdx h jobId]? = some e →
      (updateJobInHistory h jobId status now)[findJobIdx h jobId]? =
        some { e with status := status, timestamp := now }) := by
  induction h with
  | nil =>
    refine ⟨fun i _ => rfl, fun e he => ?_⟩
    simp at he
  | cons item rest ih =>
    by_cases hid : item.id = jobId
    · refine ⟨fun i hi => ?_, fun e he => ?_⟩
      · cases i with
        | zero => simp [findJobIdx, hid] at hi
        | succ j => simp [updateJobInHistory, hid]
      · simp only [findJobIdx, hid, if_pos, List.getElem?_cons_zero] at he ⊢
        simp [updateJobInHistory, hid, ← Option.some_inj.mp he]
    · refine ⟨fun i hi => ?_, fun e he => ?_⟩
      · cases i with
        | zero => simp [updateJobInHistory, hid]
        | succ j =>
          have hj : j ≠ findJobIdx rest jobId := by
            simp [findJobIdx, hid] at hi
            omega
          simp only [updateJobInHistory]
          simp only [hid, if_false, reduceIte, List.getElem?_cons_succ]
          exact (ih).1 j hj
      · simp only [findJobIdx] at he ⊢
        simp only [hid, if_false, reduceIte, List.getElem?_cons_succ] at he ⊢
        simp only [updateJobInHistory]
        simp only [hid, if_false, reduceIte, List.getElem?_cons_succ]
        exact (ih).2 e he

/-- Events of the crash scenario: jobB dispatched, its executor tab
destroyed and the job locally re-dispatched on a fresh tab, twice. -/
def crashEvents : List Event :=
  [.dispatch jobB 1 7 0, .tabRemoved 1 true 1, .dispatch jobB 2 7 2,
   .tabRemoved 2 true 3, .dispatch jobB 3 7 4]

/-- The crash scenario extended by a third destruction and re-dispatch. -/
def crashEvents4 : List Event :=
  crashEvents ++ [.tabRemoved 3 true 5, .dispatch jobB 4 7 6]

/-- State after jobC is dispatched, its tab crashes once, and the job is
re-dispatched locally on a fresh tab. -/
def redispatchedC : BgState :=
  run initialState [.dispatch jobC 1 7 0, .tabRemoved 1 true 1, .dispatch jobC 2 7 2]

/-- C1 counterexample: after jobA (id "j1") on tab 1 has been finalized by a
first handleJobSuccess call and its ActiveJobEntry removed, a second
handleJobSuccess call for the same tab id is not a no-op: it issues a second
completeJob report and increments processed and succeeded a second time, so
the two calls together have the effect of two terminal transitions. -/
theorem finalize_second_call_not_noop :
    (run initialState [.dispatch jobA 1 7 0, .success 1 "j1" true 1]).activeJobs = [] ∧
    reports (eventTrace (run initialState [.dispatch jobA 1 7 0, .success 1 "j1" true 1])
        (.success 1 "j1" true 2)) = [.completeJob "j1"] ∧
    (run initialState
      [.dispatch jobA 1 7 0, .success 1 "j1" true 1,
       .success 1 "j1" true 2]).stats.processed = 2 ∧
    (run initialState
      [.dispatch jobA 1 7 0, .success 1 "j1" true 1,
       .success 1 "j1" true 2]).stats.succeeded = 2 := by
  decide

/-- C1 amended: finalize is idempotent only through the timeout path — a
timeout firing for a tab id with no ActiveJobEntry is a no-op — while
handleJobSuccess and handleJobFailure do not guard on entry presence, so a
second direct call of a finalize handler after the entry has been removed
performs another backend report and another increment of processed. -/
theorem finalize_idempotent_timeout_path_only (st : BgState) (tabId : Nat)
    (jobId : String) (reportOk : Bool) (now now2 : Nat)
    (h : mapLookup st.activeJobs tabId = none) :
    step st (.timeout tabId reportOk now) = st ∧
    reports (eventTrace st (.success tabId jobId true now2)) = [.completeJob jobId] ∧
    (step st (.success tabId jobId true now2)).stats.processed =
      st.stats.processed + 1 := by
  refine ⟨?_, ?_, ?_⟩
  · have htr : eventTrace st (.timeout tabId reportOk now) = [] := by
      simp [eventTrace, handleJobTimeoutTrace, h]
    simp [step, htr, applyTrace]
  · simp [eventTrace, handleJobSuccessTrace, reports]
  · simp [step, eventTrace, handleJobSuccessTrace, applyTrace, applyAction]

/-- Witness for the amended C1, at the empty initial state and tab 1. -/
theorem finalize_idempotent_timeout_path_only_witness :
    step initialState (.timeout 1 true 0) = initialState ∧
    reports (eventTrace initialState (.success 1 "j1" true 2)) = [.completeJob "j1"] ∧
    (step initialState (.success 1 "j1" true 2)).stats.processed =
      initialState.stats.processed + 1 :=
  finalize_idempotent_timeout_path_only initialState 1 "j1" true 0 2 (by decide)

/-- C2 counterexample: handleJobSuccess issues the backend report before the
ActiveJobEntry removal — its trace for tab 1 and job "j1" opens with the
timeout clear followed directly by the completeJob report, and the
removeActive operation only occurs later in the trace. -/
theorem success_report_precedes_removal :
    handleJobSuccessTrace 1 "j1" true 0 =
      [.clearTimeout 1, .report (.completeJob "j1"), .statsIncSuccess 0,
       .updateHistory "j1" .completed 0, .removeActive 1, .removeRetry "j1",
       .closeTab 1] ∧
    (handleJobSuccessTrace 1 "j1" true 0).take 2 =
      [.clearTimeout 1, .report (.completeJob "j1")] ∧
    Action.removeActive 1 ∈ (handleJobSuccessTrace 1 "j1" true 0).drop 2 := by
  decide

/-- C2 amended: removal-before-report holds on the failure path —
handleJobFailure given a tab id clears the timeout and removes the
ActiveJobEntry before the failJob report — but on the success path
handleJobSuccess issues the completeJob report before removing the entry. -/
theorem removal_before_report_failure_path_only (t : Nat) (jobId msg : String)
    (reportOk : Bool) (now : Nat) :
    (handleJobFailureTrace (some t) jobId msg reportOk now).take 4 =
      [.clearTimeout t, .removeActive t, .removeRetry jobId,
       .report (.failJob jobId msg)] ∧
    (handleJobSuccessTrace t jobId reportOk now).take 2 =
      [.clearTimeout t, .report (.completeJob jobId)] := by
  cases reportOk <;> simp [handleJobFailureTrace, handleJobSuccessTrace]

/-- C3 counterexample: dispatch jobA on tab 1, then deliver a success signal
whose completeJob call throws (reportOk = false): the report is attempted
exactly once, but the surrounding catch skips the cleanup, so the
ActiveJobEntry is NOT removed from the registry. -/
theorem success_report_throw_keeps_entry :
    (step dispatchedA (.success 1 "j1" false 1)).activeJobs = [(1, jobA)] ∧
    reports (eventTrace dispatchedA (.success 1 "j1" false 1)) =
      [.completeJob "j1"] := by
  decide

/-- C3 amended: when failJob throws in handleJobFailure the report is made
exactly once without retry and the ActiveJobEntry — removed before the
report — ends up removed; but when completeJob throws in handleJobSuccess
the removal, which only comes after the report, is skipped and the active
registry is left unchanged. -/
theorem failure_path_removed_despite_report_throw (st : BgState) (t : Nat)
    (jobId msg : String) (now : Nat) :
    mapLookup (step st (.failure (some t) jobId msg false now)).activeJobs t = none ∧
    reports (eventTrace st (.failure (some t) jobId msg false now)) =
      [.failJob jobId msg] ∧
    (step st (.success t jobId false now)).activeJobs = st.activeJobs := by
  refine ⟨?_, ?_, ?_⟩
  · simp [step, eventTrace, handleJobFailureTrace, applyTrace, applyAction,
      mapLookup_mapErase_self]
  · simp [eventTrace, handleJobFailureTrace, reports]
  · simp [step, eventTrace, handleJobSuccessTrace, applyTrace, applyAction]

/-- C4: two-tier crash-retry policy of the tabs.onRemoved listener.  For a
tab holding an active job: when the local retry counter is strictly below
MAX_TAB_CLOSURE_RETRIES the counter is incremented, exactly the one job is
handed back for re-dispatch, no backend call is made and the stats record is
untouched; when the counter is at or above the ceiling it is deleted,
exactly one failJob report is issued and no local re-dispatch happens. -/
theorem tab_removal_two_tier_policy (st : BgState) (tabId : Nat) (job : Job)
    (reportOk : Bool) (now : Nat)
    (hactive : mapLookup st.activeJobs tabId = some job) :
    ((mapLookup st.tabClosureRetries job.id).getD 0 < MAX_TAB_CLOSURE_RETRIES →
      (onTabRemovedTrace st tabId reportOk now).2 = [job] ∧
      reports (onTabRemovedTrace st tabId reportOk now).1 = [] ∧
      mapLookup (step st (.tabRemoved tabId reportOk now)).tabClosureRetries job.id =
        some ((mapLookup st.tabClosureRetries job.id).getD 0 + 1) ∧
      (step st (.tabRemoved tabId reportOk now)).stats = st.stats) ∧
    (MAX_TAB_CLOSURE_RETRIES ≤ (mapLookup st.tabClosureRetries job.id).getD 0 →
      (onTabRemovedTrace st tabId reportOk now).2 = [] ∧
      reports (onTabRemovedTrace st tabId reportOk now).1 =
        [.failJob job.id TAB_CLOSED_MESSAGE] ∧
      mapLookup (step st (.tabRemoved tabId reportOk now)).tabClosureRetries job.id =
        none) := by
  constructor
  · intro hlt
    refine ⟨?_, ?_, ?_, ?_⟩ <;>
      simp [onTabRemovedTrace, hactive, hlt, step, eventTrace, applyTrace, applyAction,
        reports, mapLookup_mapInsert_self]
  · intro hge
    have hnlt : ¬ ((mapLookup st.tabClosureRetries job.id).getD 0 <
        MAX_TAB_CLOSURE_RETRIES) := by omega
    cases reportOk <;>
      refine ⟨?_, ?_, ?_⟩ <;>
      simp [onTabRemovedTrace, hactive, hnlt, step, eventTrace, applyTrace, applyAction,
        handleJobFailureTrace, reports, mapLookup_mapErase_self]

/-- Witness for C4: after dispatching jobA on tab 1 the retry counter reads
0 < 3, and removing the tab re-dispatches jobA once, makes no backend call
and sets the counter to 1 while leaving the stats record unchanged. -/
theorem tab_removal_two_tier_policy_witness :
    (onTabRemovedTrace dispatchedA 1 true 5).2 = [jobA] ∧
    reports (onTabRemovedTrace dispatchedA 1 true 5).1 = [] ∧
    mapLookup (step dispatchedA (.tabRemoved 1 true 5)).tabClosureRetries jobA.id =
      some ((mapLookup dispatchedA.tabClosureRetries jobA.id).getD 0 + 1) ∧
    (step dispatchedA (.tabRemoved 1 true 5)).stats = dispatchedA.stats :=
  (tab_removal_two_tier_policy dispatchedA 1 jobA true 5 (by decide)).1 (by decide)

/-- C5 counterexample: with MAX_TAB_CLOSURE_RETRIES = 3, the third
destruction of jobB's executor tab is not at the ceiling: the retry counter
reads 2 < 3, so the listener re-dispatches jobB a third time and makes no
backend fail call. -/
theorem third_crash_still_redispatches :
    mapLookup (run initialState crashEvents).tabClosureRetries "j2" = some 2 ∧
    (onTabRemovedTrace (run initialState crashEvents) 3 true 5).2 = [jobB] ∧
    reports (onTabRemovedTrace (run initialState crashEvents) 3 true 5).1 = [] := by
  decide

/-- C5 amended: for jobB dispatched with MAX_TAB_CLOSURE_RETRIES = 3, the
first three destructions of its executor tab each produce exactly one local
re-dispatch and no backend fail call; the fourth destruction finds the
counter at the ceiling and produces exactly one backend fail call with no
further re-dispatch. -/
theorem crash_retry_four_destructions :
    ((onTabRemovedTrace (run initialState [.dispatch jobB 1 7 0]) 1 true 1).2 = [jobB] ∧
     reports (onTabRemovedTrace (run initialState [.dispatch jobB 1 7 0]) 1 true 1).1 = []) ∧
    ((onTabRemovedTrace (run initialState (crashEvents.take 3)) 2 true 3).2 = [jobB] ∧
     reports (onTabRemovedTrace (run initialState (crashEvents.take 3)) 2 true 3).1 = []) ∧
    ((onTabRemovedTrace (run initialState crashEvents) 3 true 5).2 = [jobB] ∧
     reports (onTabRemovedTrace (run initialState crashEvents) 3 true 5).1 = []) ∧
    ((onTabRemovedTrace (run initialState crashEvents4) 4 true 7).2 = [] ∧
     reports (onTabRemovedTrace (run initialState crashEvents4) 4 true 7).1 =
       [.failJob "j2" TAB_CLOSED_MESSAGE]) := by
  decide

/-- C6: a timeout firing for a tab id whose ActiveJobEntry has already been
removed is a no-op — handleJobTimeout performs no action at all, so there is
no backend report, no stats change and no history change. -/
theorem timeout_after_finalize_noop (st : BgState) (tabId : Nat) (reportOk : Bool)
    (now : Nat) (h : mapLookup st.activeJobs tabId = none) :
    eventTrace st (.timeout tabId reportOk now) = [] ∧
    reports (eventTrace st (.timeout tabId reportOk now)) = [] ∧
    step st (.timeout tabId reportOk now) = st := by
  have htr : eventTrace st (.timeout tabId reportOk now) = [] := by
    simp [eventTrace, handleJobTimeoutTrace, h]
  exact ⟨htr, by simp [htr, reports], by simp [step, htr, applyTrace]⟩

/-- Witness for C6 at the empty initial state and tab 1. -/
theorem timeout_after_finalize_noop_witness :
    eventTrace initialState (.timeout 1 true 0) = [] ∧
    reports (eventTrace initialState (.timeout 1 true 0)) = [] ∧
    step initialState (.timeout 1 true 0) = initialState :=
  timeout_after_finalize_noop initialState 1 true 0 (by decide)

/-- C7: starting from the initial zeroed stats record, after every sequence
of events — dispatches and the terminal transitions of handleJobSuccess,
handleJobFailure, timeouts and tab removals — the stats satisfy
processed = succeeded + failed. -/
theorem stats_processed_eq_succeeded_add_failed (es : List Event) :
    (run initialState es).stats.processed =
      (run initialState es).stats.succeeded + (run initialState es).stats.failed :=
  statsInv_run es rfl

/-- C8: history bookkeeping.  First, any sequence of addJobToHistory and
updateJobInHistory operations starting from the empty list keeps the list
within the 50-record cap.  Second, an insertion prepends the new record and
keeps the first 50 records of the newest-first list, the evicted remainder
being exactly the drop-50 suffix, i.e. the oldest records.  Third,
updateJobInHistory preserves the length (no record is appended), leaves
every position other than the first match untouched, and rewrites exactly
the status and timestamp of the first matching record in place. -/
theorem history_capacity_eviction_inplace :
    (∀ ops : List HistOp, (runHist [] ops).length ≤ 50) ∧
    (∀ (h : List JobHistoryItem) (job : Job) (status : JobStatus) (now : Nat),
      addJobToHistory h job status now ++ (mkHistoryItem job status now :: h).drop 50 =
        mkHistoryItem job status now :: h) ∧
    (∀ (h : List JobHistoryItem) (jobId : String) (status : JobStatus) (now : Nat),
      (updateJobInHistory h jobId status now).length = h.length ∧
      (∀ i, i ≠ findJobIdx h jobId →
        (updateJobInHistory h jobId status now)[i]? = h[i]?) ∧
      (∀ e, h[findJobIdx h jobId]? = some e →
        (updateJobInHistory h jobId status now)[findJobIdx h jobId]? =
          some { e with status := status, timestamp := now })) := by
  refine ⟨fun ops => runHist_length_le [] ops (by simp), fun h job status now => ?_,
    fun h jobId status now => ⟨updateJobInHistory_length h jobId status now,
      (updateJobInHistory_getElem? h jobId status now).1,
      (updateJobInHistory_getElem? h jobId status now).2⟩⟩
  exact List.take_append_drop 50 (mkHistoryItem job status now :: h)

/-- Witness for C8: a one-add sequence stays within the cap, and updating
job "j1" in a singleton history keeps the length and rewrites the record's
status and timestamp in place. -/
theorem history_capacity_eviction_inplace_witness :
    (runHist [] [HistOp.add jobA .processing 0]).length ≤ 50 ∧
    (updateJobInHistory [mkHistoryItem jobA .processing 0] "j1" .completed 3).length =
      [mkHistoryItem jobA .processing 0].length ∧
    (updateJobInHistory [mkHistoryItem jobA .processing 0] "j1" .completed
        3)[findJobIdx [mkHistoryItem jobA .processing 0] "j1"]? =
      some { mkHistoryItem jobA .processing 0 with status := .completed, timestamp := 3 } :=
  ⟨history_capacity_eviction_inplace.1 [HistOp.add jobA .processing 0],
   (history_capacity_eviction_inplace.2.2 [mkHistoryItem jobA .processing 0] "j1"
     .completed 3).1,
   (history_capacity_eviction_inplace.2.2 [mkHistoryItem jobA .processing 0] "j1"
     .completed 3).2.2 (mkHistoryItem jobA .processing 0) (by decide)⟩

/-- C9 counterexample: dispatch jobC (id "j9"), destroy its tab so the
listener re-dispatches it locally, and dispatch it again: processJob appends
a second processing history record for the same job id, so the id appears
twice in processing state. -/
theorem redispatch_appends_second_processing_record :
    redispatchedC.history.countP
      (fun e => e.id == "j9" && e.status == JobStatus.processing) = 2 := by
  decide

/-- C9 amended: every call of processJob — including the local crash
re-dispatch of the same job id — appends its own processing history record;
after one crash re-dispatch the job id appears in two processing records,
and a later terminal update rewrites only the first (newest) matching
record in place, leaving the older processing record behind. -/
theorem processing_record_per_dispatch :
    (∀ (st : BgState) (job : Job) (tabId handle now : Nat),
      (step st (.dispatch job tabId handle now)).history =
        addJobToHistory st.history job .processing now) ∧
    redispatchedC.history.countP
      (fun e => e.id == "j9" && e.status == JobStatus.processing) = 2 ∧
    (updateJobInHistory redispatchedC.history "j9" .completed 9).countP
      (fun e => e.id == "j9" && e.status == JobStatus.processing) = 1 ∧
    (updateJobInHistory redispatchedC.history "j9" .completed 9).countP
      (fun e => e.id == "j9" && e.status == JobStatus.completed) = 1 := by
  refine ⟨fun st job tabId handle now => ?_, by decide, by decide, by decide⟩
  simp [step, eventTrace, processJobDispatchTrace, applyTrace, applyAction]

/-- C10: pollForJob is a pure no-op — same state, no backend call, no
dispatch — whenever the running flag is off, or the stored apiKey or apiUrl
is falsy, or the clientId is falsy; in these cases it returns before the
getNextJob call. -/
theorem poll_noop_when_disabled_or_unconfigured (cfg : PollConfig) (st : BgState)
    (nextJob : Option Job) (tabId handle now : Nat)
    (h : cfg.isRunning = false ∨ falsyStr cfg.apiKey = true ∨
         falsyStr cfg.apiUrl = true ∨ falsyStr cfg.clientId = true) :
    pollForJob cfg st nextJob tabId handle now = (st, []) := by
  rcases h with h | h | h | h <;>
    cases hr : cfg.isRunning <;>
    cases hk : falsyStr cfg.apiKey <;>
    cases hu : falsyStr cfg.apiUrl <;>
    cases hc : falsyStr cfg.clientId <;>
    simp_all [pollForJob]

/-- Witness for C10: with the running flag off, a configured backend and a
job available, pollForJob still changes nothing and makes no call. -/
theorem poll_noop_when_disabled_or_unconfigured_witness :
    pollForJob { isRunning := false, apiKey := some "k", apiUrl := some "u",
                 clientId := some "c" } initialState (some jobA) 1 7 0 =
      (initialState, []) :=
  poll_noop_when_disabled_or_unconfigured _ initialState (some jobA) 1 7 0 (Or.inl rfl)

end Isekai
